import Mathlib

/-!
Verification development for the SiegeWare lab controller
(`packages/lab-controller/lab-controller.py`).

The Python source is shallowly embedded: the JSON session record kept by
`StudentSession` becomes the structure `SessionData`, Python `dict`s become
association lists with first-match lookup and in-place update (Python dict
keys are unique, so first-match update coincides with dict assignment), and
Python `int`s become `Int`.  Stateful persistence is made explicit by
threading a `Store` value.  External effects (the verification subprocess,
the filesystem contents backing the lab catalog and the session store) are
embedded as explicit outcome data passed to the embedded functions.
-/

namespace SiegeWare

/-- First-match lookup in an association list, modelling Python
`d[k]` / `d.get(k)` on a `dict` (keys of a Python dict are unique, so the
first match is the only match). -/
def assocGet {β : Type} : List (String × β) → String → Option β
  | [], _ => none
  | p :: rest, k => if p.1 = k then some p.2 else assocGet rest k

/-- Association-list update, modelling Python `d[k] = v` on a `dict`:
replace the entry for `k` in place if present, otherwise append at the
end (Python dicts preserve insertion order and append new keys). -/
def assocSet {β : Type} : List (String × β) → String → β → List (String × β)
  | [], k, v => [(k, v)]
  | p :: rest, k, v => if p.1 = k then (k, v) :: rest else p :: assocSet rest k v

/-- Python `d.get(k, default)`. -/
def dictGet {β : Type} (d : List (String × β)) (k : String) (default : β) : β :=
  (assocGet d k).getD default

/-!
## Student session data model

`StudentSession._load_or_create` creates the record
`{"student_id": ..., "created_at": now, "current_lab": None,
  "completed_labs": [], "attempts": {}, "score": 0}`;
`start_lab` additionally sets the key `"lab_start_time"`, embedded here as
an `Option String` that is `none` until the first `start_lab`.
-/

/-- The per-student session record serialized to `STATE_DIR/{student}.json`. -/
structure SessionData where
  student_id : String
  created_at : String
  current_lab : Option String
  completed_labs : List String
  attempts : List (String × Int)
  lab_start_time : Option String
  score : Int
deriving Repr, DecidableEq

/-- The fresh record built by `StudentSession._load_or_create` when no
session file exists (`now` is `datetime.now().isoformat()`). -/
def zeroState (sid now : String) : SessionData :=
  { student_id := sid
    created_at := now
    current_lab := none
    completed_labs := []
    attempts := []
    lab_start_time := none
    score := 0 }

/-- Embeds `StudentSession.start_lab`: set the active lab, bump its attempt
counter via `attempts.get(lab_id, 0) + 1`, stamp the start time. -/
def start_lab (s : SessionData) (lab_id : String) (now : String) : SessionData :=
  { s with current_lab := some lab_id
           attempts := assocSet s.attempts lab_id (dictGet s.attempts lab_id 0 + 1)
           lab_start_time := some now }

/-- Embeds `StudentSession.complete_lab`: append `lab_id` to `completed_labs`
unless already present, add `score` to the cumulative score, clear the
active lab. -/
def complete_lab (s : SessionData) (lab_id : String) (score : Int) : SessionData :=
  { s with completed_labs :=
             if lab_id ∈ s.completed_labs then s.completed_labs
             else s.completed_labs ++ [lab_id]
           score := s.score + score
           current_lab := none }

/-!
## Operation sequences on a session record

`RawStep` applies `start_lab` / `complete_lab` with arbitrary arguments, the
way the `StudentSession` methods themselves can be called.  `CtrlStep`
applies them the way `StudentCLI` does: `cmd_start` calls `start_lab`
directly, while `complete_lab` is reached only from `cmd_verify`, which
completes the currently active lab and only when the verification score is
at least 70.
-/

/-- One unrestricted call to a mutating `StudentSession` method. -/
inductive RawStep : SessionData → SessionData → Prop
  | start (s : SessionData) (lab now : String) : RawStep s (start_lab s lab now)
  | complete (s : SessionData) (lab : String) (v : Int) :
      RawStep s (complete_lab s lab v)

/-- States reachable from the fresh record by unrestricted method calls. -/
inductive RawReachable : SessionData → Prop
  | zero (sid now : String) : RawReachable (zeroState sid now)
  | step {s t : SessionData} : RawReachable s → RawStep s t → RawReachable t

/-- One mutating step as issued by the CLI controller: `cmd_start` starts
any lab; `cmd_verify` calls `complete_lab` only on the active lab and only
with a score `≥ 70`. -/
inductive CtrlStep : SessionData → SessionData → Prop
  | start (s : SessionData) (lab now : String) : CtrlStep s (start_lab s lab now)
  | verifyPass (s : SessionData) (lab : String) (v : Int)
      (hactive : s.current_lab = some lab) (hscore : 70 ≤ v) :
      CtrlStep s (complete_lab s lab v)

/-- States reachable from the fresh record through the CLI controller. -/
inductive CtrlReachable : SessionData → Prop
  | zero (sid now : String) : CtrlReachable (zeroState sid now)
  | step {s t : SessionData} : CtrlReachable s → CtrlStep s t → CtrlReachable t

/-- The session-record invariant maintained by the controller: every
attempt entry is at least 1, every completed lab has an attempt entry, and
the active lab (if any) has an attempt entry. -/
def SessionInv (s : SessionData) : Prop :=
  (∀ p ∈ s.attempts, 1 ≤ p.2)
  ∧ (∀ L ∈ s.completed_labs, ∃ n, assocGet s.attempts L = some n ∧ 1 ≤ n)
  ∧ (∀ L, s.current_lab = some L → ∃ n, assocGet s.attempts L = some n ∧ 1 ≤ n)

/-!
## Verification engine

`LabVerifier.verify` builds a fresh results dict (empty objective lists,
score 0, empty feedback), then, when `labs/<id>/verify.py` exists, runs
`subprocess.run(["python3", script], capture_output=True, text=True,
timeout=30)`.  On return code 0 it parses stdout with `json.loads` and
merges the parsed dict into the results with `dict.update`; on a non-zero
return code it appends `f"Verification failed: {output.stderr}"`; any
exception raised inside the `try` (the 30-second `TimeoutExpired`, or a
`json.JSONDecodeError` from unparseable stdout) is caught and appends
`f"Verification error: {e}"`.  The external run is embedded as an explicit
`ScriptOutcome`; the exception strings follow CPython's
`subprocess.TimeoutExpired.__str__` ("Command '%s' timed out after %s
seconds" with the command list and the 30-second bound) and
`json.JSONDecodeError` ("%s: line %d column %d (char %d)"). -/

/-- The verification results dict produced by `LabVerifier.verify`. -/
structure VerificationResult where
  lab_id : String
  timestamp : String
  objectives_met : List String
  objectives_failed : List String
  score : Int
  feedback : List String
deriving Repr, DecidableEq

/-- A JSON object emitted by a verification script on stdout, restricted to
the keys `verify` reads back out of the merged dict.  Each field is `none`
when the key is absent (in which case `dict.update` leaves the initial
value in place).  The code performs no validation of the values. -/
structure VerifyPayload where
  objectives_met : Option (List String)
  objectives_failed : Option (List String)
  score : Option Int
  feedback : Option (List String)
deriving Repr, DecidableEq

/-- What `json.loads` does to the script's stdout. -/
inductive StdoutParse where
  | decodeError (msg : String) (line col pos : Nat)
  | payload (p : VerifyPayload)
deriving Repr, DecidableEq

/-- How the external `subprocess.run` of the verification script ended. -/
inductive ScriptOutcome where
  | timeout
  | exited (returncode : Int) (stdout : StdoutParse) (stderr : String)
deriving Repr, DecidableEq

/-- Message of `str(subprocess.TimeoutExpired(cmd, 30))` for
`cmd = ["python3", script]`: CPython renders the command list with `repr`
and the 30-second bound. -/
def timeoutExpiredMsg (script : String) : String :=
  "Command '['python3', '" ++ script ++ "']' timed out after 30 seconds"

/-- Message of `str(json.JSONDecodeError(msg, doc, pos))`: CPython formats it as
`"%s: line %d column %d (char %d)"`. -/
def jsonDecodeErrMsg (msg : String) (line col pos : Nat) : String :=
  msg ++ ": line " ++ toString line ++ " column " ++ toString col ++
    " (char " ++ toString pos ++ ")"

/-- The initial `results` dict of `LabVerifier.verify`. -/
def initialResults (lab_id ts : String) : VerificationResult :=
  { lab_id := lab_id
    timestamp := ts
    objectives_met := []
    objectives_failed := []
    score := 0
    feedback := [] }

/-- Embeds `results.update(verify_data)`: keys present in the payload replace the
initial values, absent keys keep them. -/
def dictUpdate (r : VerificationResult) (p : VerifyPayload) : VerificationResult :=
  { r with objectives_met := p.objectives_met.getD r.objectives_met
           objectives_failed := p.objectives_failed.getD r.objectives_failed
           score := p.score.getD r.score
           feedback := p.feedback.getD r.feedback }

/-- Embeds `LabVerifier.verify`.  Here `script` is `none` when `labs/<id>/verify.py`
does not exist; otherwise it carries the script path and the outcome of the
external run. -/
def verify (lab_id ts : String) (script : Option (String × ScriptOutcome)) :
    VerificationResult :=
  let results := initialResults lab_id ts
  match script with
  | none =>
      { results with feedback := results.feedback ++ ["No automated verification available"] }
  | some (path, outcome) =>
      match outcome with
      | .timeout =>
          { results with feedback := results.feedback ++
              ["Verification error: " ++ timeoutExpiredMsg path] }
      | .exited rc stdout stderr =>
          if rc = 0 then
            match stdout with
            | .decodeError m l c p =>
                { results with feedback := results.feedback ++
                    ["Verification error: " ++ jsonDecodeErrMsg m l c p] }
            | .payload pl => dictUpdate results pl
          else
            { results with feedback := results.feedback ++
                ["Verification failed: " ++ stderr] }

/-! String helpers used to show the failure feedback strings are pairwise
distinguishable. -/

/-- The last character of a string. -/
def lastChar (s : String) : Option Char := s.data.getLast?

/-!
## Student CLI: hint selection and verify threshold

`StudentCLI.cmd_hint` reads the attempt count with
`attempts.get(lab_id, 1)`, computes
`hint_index = min(attempt - 1, len(hints) - 1)` and prints
`lab.hints[hint_index]`; it returns early when no lab is active or the lab
has no hints.  `StudentCLI.cmd_verify` runs the verifier and calls
`complete_lab(lab_id, score)` exactly when `results["score"] >= 70`;
otherwise it only prints and the session record is untouched.
-/

/-- Python list indexing `l[i]` on an `int` index: a negative index counts
from the end; out of range either way is an `IndexError` (`none`). -/
def pyGet {α : Type} (l : List α) (i : Int) : Option α :=
  if 0 ≤ i then l.get? i.toNat
  else if 0 ≤ (l.length : Int) + i then l.get? ((l.length : Int) + i).toNat
  else none

/-- The hint `StudentCLI.cmd_hint` displays, given the active session and
the hints of the active lab; `none` models the early-return prints (no
active lab / no hints). -/
def cmd_hint (s : SessionData) (hints : List String) : Option String :=
  match s.current_lab with
  | none => none
  | some lab_id =>
      if hints = [] then none
      else
        let attempt := dictGet s.attempts lab_id 1
        let hint_index := min (attempt - 1) ((hints.length : Int) - 1)
        pyGet hints hint_index

/-- The effect of `StudentCLI.cmd_verify` on the session record, given the
verification result: complete the active lab exactly when the score passes
the fixed `>= 70` threshold, otherwise leave the record untouched. -/
def cmd_verify_apply (s : SessionData) (res : VerificationResult) : SessionData :=
  match s.current_lab with
  | none => s
  | some lab_id => if 70 ≤ res.score then complete_lab s lab_id res.score else s

/-!
## Lab catalog

`LabDefinition.load` checks whether `labs/<id>/lab.json` exists (absent
prints "Lab <id> not found" and returns `None`), then runs `json.load` on
the file — an unparseable file raises an uncaught `json.JSONDecodeError` —
and builds the definition with `config.get(key, default)` for every field.
-/

/-- A fully constructed lab definition (`LabDefinition.__init__`). -/
structure LabDefinition where
  lab_id : String
  title : String
  description : String
  difficulty : String
  objectives : List String
  hints : List String
  time_limit : Option Int
  verification_script : Option String
deriving Repr, DecidableEq

/-- The recognized fields of a parsed `lab.json` object; `none` models an
absent key, for which `config.get` supplies the default. -/
structure LabConfig where
  title : Option String
  description : Option String
  difficulty : Option String
  objectives : Option (List String)
  hints : Option (List String)
  time_limit : Option Int
  verification_script : Option String
deriving Repr, DecidableEq

/-- The contents of `labs/<id>/lab.json` as the loader sees them. -/
inductive LabBacking where
  | absent
  | malformed (msg : String) (line col pos : Nat)
  | jsonObject (cfg : LabConfig)
deriving Repr, DecidableEq

/-- Possible outcomes of `LabDefinition.load`: `notFound` is the printed
"Lab ... not found" plus `None` return; `raised` is an exception escaping
the function (there is no try/except around `json.load`). -/
inductive LoadResult where
  | notFound
  | ok (d : LabDefinition)
  | raised (msg : String)
deriving Repr, DecidableEq

/-- Embeds `LabDefinition.load`. -/
def LabDefinition.load (lab_id : String) (backing : LabBacking) : LoadResult :=
  match backing with
  | .absent => .notFound
  | .malformed m l c p => .raised (jsonDecodeErrMsg m l c p)
  | .jsonObject cfg =>
      .ok { lab_id := lab_id
            title := cfg.title.getD "Untitled Lab"
            description := cfg.description.getD ""
            difficulty := cfg.difficulty.getD "beginner"
            objectives := cfg.objectives.getD []
            hints := cfg.hints.getD []
            time_limit := cfg.time_limit
            verification_script := cfg.verification_script }

/-!
## Session persistence

The session store is one JSON file per student under `STATE_DIR`.
`StudentSession.__init__` only calls `_load_or_create`, which reads the
file when it exists and otherwise builds the fresh in-memory record; it
never writes.  `save` serializes the full record; `start_lab` and
`complete_lab` each end with `self.save()`.  A present file holds either a
session record (everything `save` ever writes parses back) or unparseable
bytes, on which `json.load` raises.
-/

/-- One stored session file. -/
inductive StoredFile where
  | unparseable (msg : String) (line col pos : Nat)
  | record (d : SessionData)
deriving Repr, DecidableEq

/-- The session store: student identifier to file contents. -/
abbrev Store := List (String × StoredFile)

/-- Embeds `StudentSession._load_or_create`: return the parsed file if one exists,
else the fresh zero record; a file that `json.load` cannot parse raises. -/
def loadOrCreate (sid now : String) (file : Option StoredFile) :
    Except String SessionData :=
  match file with
  | none => .ok (zeroState sid now)
  | some (.record d) => .ok d
  | some (.unparseable m l c p) => .error (jsonDecodeErrMsg m l c p)

/-- Holds (`true`) iff `_load_or_create` returned a record rather than raising. -/
def loadSucceeds (e : Except String SessionData) : Bool :=
  match e with
  | .ok _ => true
  | .error _ => false

/-- Constructing a `StudentSession` (as `get`/`cmd_status` do): read the
student's file, never write — the store is returned unchanged. -/
def sessionInit (store : Store) (sid now : String) :
    Except String SessionData × Store :=
  (loadOrCreate sid now (assocGet store sid), store)

/-- Embeds `start_lab` followed by its trailing `save()`: the full new record is
serialized to the student's file before returning. -/
def startLabOp (store : Store) (sid : String) (s : SessionData)
    (lab now : String) : SessionData × Store :=
  let s' := start_lab s lab now
  (s', assocSet store sid (.record s'))

/-- Embeds `complete_lab` followed by its trailing `save()`. -/
def completeLabOp (store : Store) (sid : String) (s : SessionData)
    (lab : String) (v : Int) : SessionData × Store :=
  let s' := complete_lab s lab v
  (s', assocSet store sid (.record s'))

end SiegeWare

namespace SiegeWare

/-! ## Helper lemmas about the embedded operations -/

theorem assocGet_assocSet_self {β : Type} (d : List (String × β)) (k : String) (v : β) :
    assocGet (assocSet d k v) k = some v := by
  induction d with
  | nil => simp [assocSet, assocGet]
  | cons p rest ih =>
    by_cases h : p.1 = k
    · simp [assocSet, h, assocGet]
    · simpa [assocSet, h, assocGet] using ih

theorem assocGet_assocSet_ne {β : Type} (d : List (String × β)) (k k' : String) (v : β)
    (h : k' ≠ k) : assocGet (assocSet d k v) k' = assocGet d k' := by
  have h' : k ≠ k' := fun hh => h hh.symm
  induction d with
  | nil => simp [assocSet, assocGet, h']
  | cons p rest ih =>
    by_cases hp : p.1 = k
    · subst hp
      simp [assocSet, assocGet, h']
    · by_cases hp' : p.1 = k'
      · simp [assocSet, hp, assocGet, hp', h]
      · simpa [assocSet, hp, assocGet, hp'] using ih

theorem assocGet_mem {β : Type} (d : List (String × β)) (k : String) (n : β)
    (h : assocGet d k = some n) : (k, n) ∈ d := by
  induction d with
  | nil => simp [assocGet] at h
  | cons p rest ih =>
    by_cases hp : p.1 = k
    · simp only [assocGet, if_pos hp, Option.some.injEq] at h
      exact List.mem_cons.mpr (Or.inl (by cases p; simp_all))
    · simp only [assocGet, if_neg hp] at h
      exact List.mem_cons_of_mem _ (ih h)

theorem mem_assocSet {β : Type} (d : List (String × β)) (k : String) (v : β)
    (q : String × β) (hq : q ∈ assocSet d k v) : q = (k, v) ∨ q ∈ d := by
  induction d with
  | nil => simpa [assocSet] using hq
  | cons p rest ih =>
    by_cases h : p.1 = k
    · simp only [assocSet, h, if_pos rfl] at hq
      rcases List.mem_cons.mp hq with h1 | h2
      · exact Or.inl h1
      · exact Or.inr (List.mem_cons_of_mem _ h2)
    · simp only [assocSet, h, if_neg h] at hq
      rcases List.mem_cons.mp hq with h1 | h2
      · exact Or.inr (h1 ▸ List.mem_cons_self _ _)
      · rcases ih h2 with h3 | h4
        · exact Or.inl h3
        · exact Or.inr (List.mem_cons_of_mem _ h4)

theorem sessionInv_zero (sid now : String) : SessionInv (zeroState sid now) := by
  refine ⟨?_, ?_, ?_⟩ <;> simp [zeroState, assocGet]

theorem sessionInv_start (s : SessionData) (lab now : String) (h : SessionInv s) :
    SessionInv (start_lab s lab now) := by
  obtain ⟨h1, h2, h3⟩ := h
  have hget : 0 ≤ dictGet s.attempts lab 0 := by
    unfold dictGet
    cases hfind : assocGet s.attempts lab with
    | none => simp
    | some n =>
      have := h1 _ (assocGet_mem _ _ _ hfind)
      simp only [Option.getD_some]
      omega
  have hone : 1 ≤ dictGet s.attempts lab 0 + 1 := by omega
  refine ⟨?_, ?_, ?_⟩
  · intro p hp
    rcases mem_assocSet _ _ _ _ hp with h | h
    · subst h; exact hone
    · exact h1 _ h
  · intro L hL
    obtain ⟨n, hn, hn1⟩ := h2 L hL
    by_cases hLlab : L = lab
    · subst hLlab
      exact ⟨_, assocGet_assocSet_self _ _ _, hone⟩
    · exact ⟨n, by rw [show (start_lab s lab now).attempts =
        assocSet s.attempts lab (dictGet s.attempts lab 0 + 1) from rfl,
        assocGet_assocSet_ne _ _ _ _ hLlab]; exact hn, hn1⟩
  · intro L hL
    have : lab = L := by
      simpa [start_lab] using hL
    subst this
    exact ⟨_, assocGet_assocSet_self _ _ _, hone⟩

theorem sessionInv_complete (s : SessionData) (lab : String) (v : Int)
    (hactive : s.current_lab = some lab) (h : SessionInv s) :
    SessionInv (complete_lab s lab v) := by
  obtain ⟨h1, h2, h3⟩ := h
  refine ⟨h1, ?_, ?_⟩
  · intro L hL
    simp only [complete_lab] at hL
    by_cases hmem : lab ∈ s.completed_labs
    · simp only [if_pos hmem] at hL
      exact h2 L hL
    · simp only [if_neg hmem, List.mem_append, List.mem_singleton] at hL
      rcases hL with hL | hL
      · exact h2 L hL
      · subst hL
        exact h3 L hactive
  · intro L hL
    simp [complete_lab] at hL

theorem sessionInv_ctrlStep {s t : SessionData} (hstep : CtrlStep s t)
    (h : SessionInv s) : SessionInv t := by
  cases hstep with
  | start lab now => exact sessionInv_start s lab now h
  | verifyPass lab v hactive hscore => exact sessionInv_complete s lab v hactive h

theorem sessionInv_ctrlReachable {s : SessionData} (h : CtrlReachable s) :
    SessionInv s := by
  induction h with
  | zero sid now => exact sessionInv_zero sid now
  | step _ hstep ih => exact sessionInv_ctrlStep hstep ih

theorem dictGet_mono_start (s : SessionData) (lab now L : String) :
    dictGet s.attempts L 0 ≤ dictGet (start_lab s lab now).attempts L 0 := by
  by_cases hL : L = lab
  · subst hL
    unfold dictGet
    rw [show (start_lab s L now).attempts =
      assocSet s.attempts L (dictGet s.attempts L 0 + 1) from rfl,
      assocGet_assocSet_self]
    simp only [Option.getD_some, dictGet]
    omega
  · unfold dictGet
    rw [show (start_lab s lab now).attempts =
      assocSet s.attempts lab (dictGet s.attempts lab 0 + 1) from rfl,
      assocGet_assocSet_ne _ _ _ _ hL]

theorem lastChar_append (s t : String) (h : t.data ≠ []) :
    lastChar (s ++ t) = lastChar t := by
  unfold lastChar
  rw [String.data_append]
  exact List.getLast?_append_of_ne_nil _ h

theorem data_ne_nil_append (s t : String) (h : t.data ≠ []) :
    (s ++ t).data ≠ [] := by
  rw [String.data_append]
  simp only [ne_eq, List.append_eq_nil]
  tauto

/-- Strings starting `"Verification failed: "` and
`"Verification error: "` differ (14th character `f` vs `e`). -/
theorem failed_ne_error (a b : String) :
    "Verification failed: " ++ a ≠ "Verification error: " ++ b := by
  intro h
  have h2 := congrArg (fun s => s.data[13]?) h
  simp only [String.data_append] at h2
  rw [List.getElem?_append_left (by decide),
      List.getElem?_append_left (by decide)] at h2
  exact absurd h2 (by decide)

theorem lastChar_timeoutMsg (script : String) :
    lastChar (timeoutExpiredMsg script) = some 's' := by
  unfold timeoutExpiredMsg
  rw [lastChar_append ("Command '['python3', '" ++ script)
    "']' timed out after 30 seconds" (by decide)]
  decide

theorem lastChar_jsonMsg (m : String) (l c p : Nat) :
    lastChar (jsonDecodeErrMsg m l c p) = some ')' := by
  unfold jsonDecodeErrMsg
  rw [lastChar_append _ ")" (by decide)]
  decide

theorem timeoutMsg_data_ne_nil (script : String) :
    (timeoutExpiredMsg script).data ≠ [] := by
  unfold timeoutExpiredMsg
  exact data_ne_nil_append _ _ (by decide)

theorem jsonMsg_data_ne_nil (m : String) (l c p : Nat) :
    (jsonDecodeErrMsg m l c p).data ≠ [] := by
  unfold jsonDecodeErrMsg
  exact data_ne_nil_append _ _ (by decide)

/-- The timeout feedback and the parse-error feedback differ (last
character `s` vs `)`). -/
theorem error_timeout_ne_error_json (script m : String) (l c p : Nat) :
    "Verification error: " ++ timeoutExpiredMsg script ≠
      "Verification error: " ++ jsonDecodeErrMsg m l c p := by
  intro h
  have h2 := congrArg lastChar h
  rw [lastChar_append _ _ (timeoutMsg_data_ne_nil script),
      lastChar_append _ _ (jsonMsg_data_ne_nil m l c p),
      lastChar_timeoutMsg, lastChar_jsonMsg] at h2
  exact absurd h2 (by decide)

/-- C1: `complete_lab` adds the lab to the completed set only when absent,
always adds the score, and clears the active lab; two calls with the same
lab grow the completed set by at most one element but award the score twice. -/
theorem complete_lab_idempotent_membership_double_score
    (s : SessionData) (L : String) (v v' : Int) :
    (complete_lab s L v).completed_labs =
      (if L ∈ s.completed_labs then s.completed_labs else s.completed_labs ++ [L])
    ∧ (complete_lab (complete_lab s L v) L v').completed_labs =
        (complete_lab s L v).completed_labs
    ∧ (complete_lab s L v).score = s.score + v
    ∧ (complete_lab (complete_lab s L v) L v').score = s.score + v + v'
    ∧ (complete_lab s L v).current_lab = none
    ∧ L ∈ (complete_lab s L v).completed_labs
    ∧ (complete_lab (complete_lab s L v) L v').completed_labs.length ≤
        s.completed_labs.length + 1 := by
  refine ⟨rfl, ?_, rfl, rfl, rfl, ?_, ?_⟩ <;>
    by_cases h : L ∈ s.completed_labs <;>
      simp [complete_lab, h]

/-- C2 as stated fails: the raw `StudentSession` methods allow
`complete_lab` on a never-started lab, which puts the lab in the completed
set with no attempt entry, and a negative score argument makes the
cumulative score decrease.  Concretely, one `complete_lab("lab-01", -5)`
call on the fresh record exhibits both. -/
theorem raw_session_invariant_fails :
    ¬ (∀ st : SessionData, RawReachable st →
        (∀ L ∈ st.completed_labs, ∃ n, assocGet st.attempts L = some n ∧ 1 ≤ n)
        ∧ (∀ L, 0 ≤ dictGet st.attempts L 0)
        ∧ (∀ st', RawStep st st' →
            (∀ L, dictGet st.attempts L 0 ≤ dictGet st'.attempts L 0)
            ∧ st.score ≤ st'.score)) := by
  intro h
  obtain ⟨hc, -, -⟩ := h (complete_lab (zeroState "s1" "t0") "lab-01" (-5))
    (RawReachable.step (RawReachable.zero "s1" "t0")
      (RawStep.complete _ "lab-01" (-5)))
  obtain ⟨n, hn, -⟩ := hc "lab-01" (by decide)
  simp [complete_lab, zeroState, assocGet] at hn

/-- C2 (amended): restricted to operation sequences issued as the CLI
controller issues them — `complete_lab` is invoked only on the currently
active lab and only with a passing score (≥ 70), as `cmd_verify` does —
every completed lab has an attempt entry ≥ 1, attempt counts are never
negative and never decrease across a step, and the cumulative score never
decreases across a step. -/
theorem ctrl_session_invariants (st st' : SessionData)
    (hreach : CtrlReachable st) (hstep : CtrlStep st st') :
    (∀ L ∈ st.completed_labs, ∃ n, assocGet st.attempts L = some n ∧ 1 ≤ n)
    ∧ (∀ p ∈ st.attempts, 1 ≤ p.2)
    ∧ (∀ L, 0 ≤ dictGet st.attempts L 0)
    ∧ (∀ L, dictGet st.attempts L 0 ≤ dictGet st'.attempts L 0)
    ∧ st.score ≤ st'.score := by
  obtain ⟨h1, h2, h3⟩ := sessionInv_ctrlReachable hreach
  refine ⟨h2, h1, ?_, ?_, ?_⟩
  · intro L
    unfold dictGet
    cases hf : assocGet st.attempts L with
    | none => simp
    | some n =>
      have := h1 _ (assocGet_mem _ _ _ hf)
      simp only [Option.getD_some]
      omega
  · intro L
    cases hstep with
    | start lab now => exact dictGet_mono_start st lab now L
    | verifyPass lab v hactive hscore => exact le_refl _
  · cases hstep with
    | start lab now => exact le_refl _
    | verifyPass lab v hactive hscore =>
      show st.score ≤ st.score + v
      omega

/-- C4: with an active lab carrying a nonempty hint list, `cmd_hint`
returns the hint at index `min(attempt-1, k-1)`; the clamp keeps the index
in range, so the lookup always succeeds, and an attempt number beyond the
hint count yields the last hint, `k-1`. -/
theorem cmd_hint_clamp (s : SessionData) (L : String) (hints : List String)
    (hactive : s.current_lab = some L) (hk : hints ≠ [])
    (hn : 1 ≤ dictGet s.attempts L 1) :
    cmd_hint s hints =
      hints.get? (min (dictGet s.attempts L 1 - 1).toNat (hints.length - 1))
    ∧ (cmd_hint s hints).isSome = true
    ∧ ((hints.length : Int) < dictGet s.attempts L 1 →
        cmd_hint s hints = hints.get? (hints.length - 1)) := by
  have hk1 : 0 < hints.length := List.length_pos.mpr hk
  have h0 : 0 ≤ min (dictGet s.attempts L 1 - 1) ((hints.length : Int) - 1) := by
    apply le_min <;> omega
  have htn : (min (dictGet s.attempts L 1 - 1) ((hints.length : Int) - 1)).toNat =
      min (dictGet s.attempts L 1 - 1).toNat (hints.length - 1) := by
    rcases le_total (dictGet s.attempts L 1 - 1) ((hints.length : Int) - 1) with h | h
    · rw [min_eq_left h, Nat.min_def]
      split <;> omega
    · rw [min_eq_right h, Nat.min_def]
      split <;> omega
  have heq : cmd_hint s hints =
      hints.get? (min (dictGet s.attempts L 1 - 1).toNat (hints.length - 1)) := by
    simp only [cmd_hint, hactive, if_neg hk, pyGet, if_pos h0, htn]
  have hidx : min (dictGet s.attempts L 1 - 1).toNat (hints.length - 1) < hints.length :=
    Nat.lt_of_le_of_lt (Nat.min_le_right _ _) (by omega)
  refine ⟨heq, ?_, ?_⟩
  · rw [heq, List.get?_eq_get hidx]
    rfl
  · intro hgt
    rw [heq]
    congr 1
    exact min_eq_right (by omega)

theorem cmd_hint_clamp_witness :
    (cmd_hint (start_lab (zeroState "s1" "t0") "lab-01" "t1") ["h1", "h2"]).isSome = true :=
  (cmd_hint_clamp (start_lab (zeroState "s1" "t0") "lab-01" "t1") "lab-01"
    ["h1", "h2"] rfl (by decide) (by decide)).2.1

/-- C5: the 70-point pass threshold lives in `cmd_verify`, not in the
engine — the engine hands back the payload score untouched — and on an
active lab a below-threshold result leaves the session record exactly
unchanged, while a passing result records completion, folds the score in,
and clears the active lab. -/
theorem cmd_verify_threshold (s : SessionData) (L : String)
    (res : VerificationResult) (pl : VerifyPayload)
    (lab ts path stderr : String) (hactive : s.current_lab = some L) :
    (res.score < 70 → cmd_verify_apply s res = s)
    ∧ (70 ≤ res.score →
        cmd_verify_apply s res = complete_lab s L res.score
        ∧ (cmd_verify_apply s res).current_lab = none
        ∧ L ∈ (cmd_verify_apply s res).completed_labs
        ∧ (cmd_verify_apply s res).score = s.score + res.score)
    ∧ (verify lab ts (some (path, .exited 0 (.payload pl) stderr))).score =
        pl.score.getD 0 := by
  refine ⟨?_, ?_, rfl⟩
  · intro hlt
    simp only [cmd_verify_apply, hactive]
    rw [if_neg (by omega)]
  · intro hge
    have h1 : cmd_verify_apply s res = complete_lab s L res.score := by
      simp only [cmd_verify_apply, hactive]
      rw [if_pos hge]
    refine ⟨h1, by rw [h1]; rfl, ?_, by rw [h1]; rfl⟩
    rw [h1]
    by_cases hm : L ∈ s.completed_labs <;> simp [complete_lab, hm]

theorem cmd_verify_threshold_witness :
    cmd_verify_apply (start_lab (zeroState "s1" "t0") "lab-01" "t1")
      { lab_id := "lab-01", timestamp := "t2", objectives_met := [],
        objectives_failed := [], score := 40, feedback := [] } =
      start_lab (zeroState "s1" "t0") "lab-01" "t1"
    ∧ (cmd_verify_apply (start_lab (zeroState "s1" "t0") "lab-01" "t1")
        { lab_id := "lab-01", timestamp := "t2", objectives_met := [],
          objectives_failed := [], score := 85, feedback := [] }).current_lab = none :=
  ⟨(cmd_verify_threshold (start_lab (zeroState "s1" "t0") "lab-01" "t1") "lab-01"
      { lab_id := "lab-01", timestamp := "t2", objectives_met := [],
        objectives_failed := [], score := 40, feedback := [] }
      ⟨none, none, none, none⟩ "lab-01" "t2" "p" "" rfl).1 (by decide),
   ((cmd_verify_threshold (start_lab (zeroState "s1" "t0") "lab-01" "t1") "lab-01"
      { lab_id := "lab-01", timestamp := "t2", objectives_met := [],
        objectives_failed := [], score := 85, feedback := [] }
      ⟨none, none, none, none⟩ "lab-01" "t2" "p" "" rfl).2.1 (by decide)).2.1⟩

/-- C8 as stated fails: a present but malformed `lab.json` makes
`json.load` raise an uncaught decode error, so `load` neither returns a
definition nor reports NotFound. -/
theorem load_malformed_raises :
    LabDefinition.load "lab-01" (.malformed "Expecting value" 1 1 0) =
      .raised (jsonDecodeErrMsg "Expecting value" 1 1 0)
    ∧ LabDefinition.load "lab-01" (.malformed "Expecting value" 1 1 0) ≠ .notFound :=
  ⟨rfl, by decide⟩

/-- C8 (amended): `load` reports NotFound exactly on an absent backing
file (without crashing); a file parsed as a JSON object always yields a
fully constructed definition, every field populated from the object or its
default; but a present, unparseable file raises an uncaught decode error
instead of reporting NotFound. -/
theorem load_cases (lab_id : String) (cfg : LabConfig) (m : String) (l c p : Nat) :
    LabDefinition.load lab_id .absent = .notFound
    ∧ LabDefinition.load lab_id (.jsonObject cfg) =
        .ok { lab_id := lab_id
              title := cfg.title.getD "Untitled Lab"
              description := cfg.description.getD ""
              difficulty := cfg.difficulty.getD "beginner"
              objectives := cfg.objectives.getD []
              hints := cfg.hints.getD []
              time_limit := cfg.time_limit
              verification_script := cfg.verification_script }
    ∧ LabDefinition.load lab_id (.malformed m l c p) =
        .raised (jsonDecodeErrMsg m l c p) :=
  ⟨rfl, rfl, rfl⟩

/-- C9 as stated fails: a backing store holding an unparseable session
file makes `_load_or_create` raise inside `json.load`, so `get` fails for
that store state. -/
theorem load_or_create_fails_on_unparseable :
    loadSucceeds (loadOrCreate "s1" "t0"
      (some (.unparseable "Expecting value" 1 1 0))) = false
    ∧ loadOrCreate "s1" "t0" (some (.unparseable "Expecting value" 1 1 0)) =
        .error (jsonDecodeErrMsg "Expecting value" 1 1 0) :=
  ⟨rfl, rfl⟩

/-- C9 (amended): `get` succeeds whenever the student's backing file is
absent or parseable: with no file it auto-creates the zero-state record
(no active lab, empty completed set, empty attempts map, score 0), and
with a stored record it returns it; only a present file that `json.load`
cannot parse makes it raise. -/
theorem load_or_create_succeeds (sid now : String) (d : SessionData) :
    loadOrCreate sid now none = .ok (zeroState sid now)
    ∧ zeroState sid now =
        { student_id := sid, created_at := now, current_lab := none,
          completed_labs := [], attempts := [], lab_start_time := none, score := 0 }
    ∧ loadOrCreate sid now (some (.record d)) = .ok d
    ∧ loadSucceeds (loadOrCreate sid now none) = true
    ∧ loadSucceeds (loadOrCreate sid now (some (.record d))) = true :=
  ⟨rfl, rfl, rfl, rfl, rfl⟩

/-- C10: constructing or reading a session writes nothing — `sessionInit`
returns the store unchanged, the auto-created zero record living only in
memory — while `start_lab` and `complete_lab` each serialize the full new
record to the student's key before returning and leave every other
student's file untouched. -/
theorem session_read_writes_nothing (store : Store) (sid now sid' : String)
    (s : SessionData) (lab : String) (v : Int) (hne : sid' ≠ sid) :
    (sessionInit store sid now).2 = store
    ∧ (assocGet store sid = none →
        (sessionInit store sid now).1 = .ok (zeroState sid now))
    ∧ (startLabOp store sid s lab now).2 =
        assocSet store sid (.record (start_lab s lab now))
    ∧ assocGet (startLabOp store sid s lab now).2 sid =
        some (.record (start_lab s lab now))
    ∧ assocGet (startLabOp store sid s lab now).2 sid' = assocGet store sid'
    ∧ (completeLabOp store sid s lab v).2 =
        assocSet store sid (.record (complete_lab s lab v))
    ∧ assocGet (completeLabOp store sid s lab v).2 sid =
        some (.record (complete_lab s lab v))
    ∧ assocGet (completeLabOp store sid s lab v).2 sid' = assocGet store sid' := by
  refine ⟨rfl, ?_, rfl, assocGet_assocSet_self _ _ _,
    assocGet_assocSet_ne _ _ _ _ hne, rfl, assocGet_assocSet_self _ _ _,
    assocGet_assocSet_ne _ _ _ _ hne⟩
  intro h
  simp [sessionInit, loadOrCreate, h]

theorem session_read_writes_nothing_witness :
    (sessionInit [] "s1" "t0").2 = []
    ∧ (sessionInit [] "s1" "t0").1 = .ok (zeroState "s1" "t0")
    ∧ assocGet (startLabOp [] "s1" (zeroState "s1" "t0") "lab-01" "t1").2 "s2" =
        assocGet ([] : Store) "s2" :=
  ⟨(session_read_writes_nothing [] "s1" "t0" "s2" (zeroState "s1" "t0")
      "lab-01" 0 (by decide)).1,
   (session_read_writes_nothing [] "s1" "t0" "s2" (zeroState "s1" "t0")
      "lab-01" 0 (by decide)).2.1 rfl,
   (session_read_writes_nothing [] "s1" "t0" "s2" (zeroState "s1" "t0")
      "lab-01" 0 (by decide)).2.2.2.2.1⟩

/-- C3: every failing verification run — timeout, non-zero exit (crash),
or clean exit with unparseable stdout — yields a result with empty
met/failed objective lists, score 0, and one feedback string describing the
failure, and the three feedback strings are pairwise distinct; the timeout
feedback carries the `TimeoutExpired` text (naming the 30-second bound),
not the crash text. -/
theorem verify_failure_modes (lab ts path stderr m : String) (rc : Int)
    (sp : StdoutParse) (l c p : Nat) (hrc : rc ≠ 0) :
    ((verify lab ts (some (path, .timeout))).objectives_met = []
      ∧ (verify lab ts (some (path, .timeout))).objectives_failed = []
      ∧ (verify lab ts (some (path, .timeout))).score = 0
      ∧ (verify lab ts (some (path, .timeout))).feedback =
          ["Verification error: " ++ timeoutExpiredMsg path])
    ∧ ((verify lab ts (some (path, .exited rc sp stderr))).objectives_met = []
      ∧ (verify lab ts (some (path, .exited rc sp stderr))).objectives_failed = []
      ∧ (verify lab ts (some (path, .exited rc sp stderr))).score = 0
      ∧ (verify lab ts (some (path, .exited rc sp stderr))).feedback =
          ["Verification failed: " ++ stderr])
    ∧ ((verify lab ts (some (path, .exited 0 (.decodeError m l c p) stderr))).objectives_met = []
      ∧ (verify lab ts (some (path, .exited 0 (.decodeError m l c p) stderr))).objectives_failed = []
      ∧ (verify lab ts (some (path, .exited 0 (.decodeError m l c p) stderr))).score = 0
      ∧ (verify lab ts (some (path, .exited 0 (.decodeError m l c p) stderr))).feedback =
          ["Verification error: " ++ jsonDecodeErrMsg m l c p])
    ∧ "Verification error: " ++ timeoutExpiredMsg path ≠
        "Verification failed: " ++ stderr
    ∧ "Verification error: " ++ jsonDecodeErrMsg m l c p ≠
        "Verification failed: " ++ stderr
    ∧ "Verification error: " ++ timeoutExpiredMsg path ≠
        "Verification error: " ++ jsonDecodeErrMsg m l c p := by
  refine ⟨⟨rfl, rfl, rfl, rfl⟩, ?_, ⟨rfl, rfl, rfl, rfl⟩, ?_, ?_, ?_⟩
  · simp [verify, initialResults, if_neg hrc]
  · exact fun h => failed_ne_error stderr (timeoutExpiredMsg path) h.symm
  · exact fun h => failed_ne_error stderr (jsonDecodeErrMsg m l c p) h.symm
  · exact error_timeout_ne_error_json path m l c p

theorem verify_failure_modes_witness :
    (verify "lab-01" "t0" (some ("/labs/lab-01/verify.py",
        .exited 1 (.payload ⟨none, none, none, none⟩) "boom"))).feedback =
      ["Verification failed: " ++ "boom"]
    ∧ "Verification error: " ++ timeoutExpiredMsg "/labs/lab-01/verify.py" ≠
        "Verification failed: " ++ "boom" :=
  ⟨(verify_failure_modes "lab-01" "t0" "/labs/lab-01/verify.py" "boom"
      "Expecting value" 1 (.payload ⟨none, none, none, none⟩) 1 1 0
      (by decide)).2.1.2.2.2,
   (verify_failure_modes "lab-01" "t0" "/labs/lab-01/verify.py" "boom"
      "Expecting value" 1 (.payload ⟨none, none, none, none⟩) 1 1 0
      (by decide)).2.2.2.1⟩

/-- C6: with no verification script the engine returns score 0, empty
objective lists, and the explicit "no automated verification" note; the
score is below the 70 passing threshold, so it can never pass such a lab. -/
theorem verify_no_script (lab ts : String) :
    verify lab ts none =
      { lab_id := lab
        timestamp := ts
        objectives_met := []
        objectives_failed := []
        score := 0
        feedback := ["No automated verification available"] }
    ∧ (verify lab ts none).score < 70 :=
  ⟨rfl, by show (0 : Int) < 70; decide⟩

/-- C7 as stated fails: `verify` copies the payload score into the result
without validation, so a clean exit whose payload carries score 150
produces a result with score 150, outside [0,100]. -/
theorem verify_score_range_fails :
    (verify "lab-01" "t0" (some ("/labs/lab-01/verify.py",
        .exited 0 (.payload ⟨none, none, some 150, none⟩) ""))).score = 150
    ∧ ¬ ((verify "lab-01" "t0" (some ("/labs/lab-01/verify.py",
        .exited 0 (.payload ⟨none, none, some 150, none⟩) ""))).score ≤ 100) :=
  ⟨rfl, by show ¬ (150 : Int) ≤ 100; decide⟩

/-- C7 (amended): the result score is 0 on the no-script path and on every
failure path; on a clean exit with a parsed payload the score is the
payload's score, taken without validation, so it lies in [0,100] exactly
when the payload obeys the documented 0–100 protocol. -/
theorem verify_score_cases (lab ts path stderr m : String) (rc : Int)
    (sp : StdoutParse) (l c p : Nat) (pl : VerifyPayload) :
    (verify lab ts none).score = 0
    ∧ (verify lab ts (some (path, .timeout))).score = 0
    ∧ (rc ≠ 0 → (verify lab ts (some (path, .exited rc sp stderr))).score = 0)
    ∧ (verify lab ts (some (path, .exited 0 (.decodeError m l c p) stderr))).score = 0
    ∧ (verify lab ts (some (path, .exited 0 (.payload pl) stderr))).score = pl.score.getD 0
    ∧ (0 ≤ pl.score.getD 0 ∧ pl.score.getD 0 ≤ 100 →
        0 ≤ (verify lab ts (some (path, .exited 0 (.payload pl) stderr))).score
        ∧ (verify lab ts (some (path, .exited 0 (.payload pl) stderr))).score ≤ 100) := by
  refine ⟨rfl, rfl, ?_, rfl, ?_, ?_⟩
  · intro hrc
    simp only [verify, initialResults, if_neg hrc]
  · show (dictUpdate (initialResults lab ts) pl).score = pl.score.getD 0
    rfl
  · intro hr
    show 0 ≤ (dictUpdate (initialResults lab ts) pl).score
      ∧ (dictUpdate (initialResults lab ts) pl).score ≤ 100
    exact hr

theorem verify_score_cases_witness :
    (verify "lab-01" "t0" none).score = 0
    ∧ (verify "lab-01" "t0" (some ("/labs/lab-01/verify.py",
        .exited 1 (.payload ⟨none, none, none, none⟩) "boom"))).score = 0
    ∧ 0 ≤ (verify "lab-01" "t0" (some ("/labs/lab-01/verify.py",
        .exited 0 (.payload ⟨none, none, some 85, none⟩) ""))).score
    ∧ (verify "lab-01" "t0" (some ("/labs/lab-01/verify.py",
        .exited 0 (.payload ⟨none, none, some 85, none⟩) ""))).score ≤ 100 :=
  ⟨(verify_score_cases "lab-01" "t0" "/labs/lab-01/verify.py" "boom"
      "Expecting value" 1 (.payload ⟨none, none, none, none⟩) 1 1 0
      ⟨none, none, some 85, none⟩).1,
   (verify_score_cases "lab-01" "t0" "/labs/lab-01/verify.py" "boom"
      "Expecting value" 1 (.payload ⟨none, none, none, none⟩) 1 1 0
      ⟨none, none, some 85, none⟩).2.2.1 (by decide),
   ((verify_score_cases "lab-01" "t0" "/labs/lab-01/verify.py" "boom"
      "Expecting value" 1 (.payload ⟨none, none, none, none⟩) 1 1 0
      ⟨none, none, some 85, none⟩).2.2.2.2.2 (by decide)).1,
   ((verify_score_cases "lab-01" "t0" "/labs/lab-01/verify.py" "boom"
      "Expecting value" 1 (.payload ⟨none, none, none, none⟩) 1 1 0
      ⟨none, none, some 85, none⟩).2.2.2.2.2 (by decide)).2⟩

theorem ctrl_session_invariants_witness :
    dictGet (start_lab (zeroState "s1" "t0") "lab-01" "t1").attempts "lab-01" 0 ≤
      dictGet (complete_lab (start_lab (zeroState "s1" "t0") "lab-01" "t1")
        "lab-01" 85).attempts "lab-01" 0
    ∧ (start_lab (zeroState "s1" "t0") "lab-01" "t1").score ≤
        (complete_lab (start_lab (zeroState "s1" "t0") "lab-01" "t1") "lab-01" 85).score :=
  ⟨(ctrl_session_invariants _ _
      (CtrlReachable.step (CtrlReachable.zero "s1" "t0") (CtrlStep.start _ "lab-01" "t1"))
      (CtrlStep.verifyPass _ "lab-01" 85 rfl (by decide))).2.2.2.1 "lab-01",
   (ctrl_session_invariants _ _
      (CtrlReachable.step (CtrlReachable.zero "s1" "t0") (CtrlStep.start _ "lab-01" "t1"))
      (CtrlStep.verifyPass _ "lab-01" 85 rfl (by decide))).2.2.2.2⟩

end SiegeWare

